import Mathlib

/-!
# Reflective Resonance backend — verification of spec claims

Shallow embedding of the turn-workflow backend (FastAPI + asyncio source):
conversation store (`backend/conversations.py`), request validation
(`backend/models.py`), the SSE streaming paths (`backend/streaming.py`,
`backend/workflow.py`), comment routing and Turn-3 participation
(`backend/workflow.py`), the events orchestrator and its per-session state
(`backend/events/orchestrator.py`, `backend/events/state.py`), and the
decomposition worker pool contract (`backend/waves/worker.py`, §4.3 of the
spec).

Pure functions of the source become Lean functions; Python dicts become
insertion-ordered association lists; Python sets become `Finset ℕ`;
exception-raising collaborators (LLM, TTS) become explicit outcome values.
-/

namespace RR

/-! ## SSE event vocabulary

`backend/models.py` declares the 3-turn event models: every slot event
requires `sessionId`, `turnIndex` and `kind`.  The legacy streaming path
(`backend/streaming.py`) constructs these events *without* a turn index,
so the turn tag is embedded as `Option ℕ` (`none` = the field was omitted
by the construction site). -/

inductive SSE where
  | turnStart (turn : ℕ)
  | turnDone (turn : ℕ) (slotCount : ℕ)
  | slotStart (turn : Option ℕ) (slotId : ℕ)
  | slotDone (turn : Option ℕ) (slotId : ℕ) (text : String) (voiceProfile : String)
  | slotAudio (turn : Option ℕ) (slotId : ℕ) (audioPath : String)
  | slotError (turn : Option ℕ) (slotId : ℕ) (errorType : String) (message : String)
  | done (completedSlots : ℕ)
  deriving DecidableEq, Repr

/-- Is the event a `turn.start` event? -/
def SSE.isTurnStart : SSE → Bool
  | .turnStart _ => true
  | _ => false

/-- Is the event a `turn.done` event? -/
def SSE.isTurnDone : SSE → Bool
  | .turnDone _ _ => true
  | _ => false

/-- Is the event a `slot.start` event? -/
def SSE.isSlotStart : SSE → Bool
  | .slotStart _ _ => true
  | _ => false

/-! ## Session path derivation (`backend/sessions.py`)

`TTSSession.get_turn1_relative_path` and friends are pure string
builders. -/

/-- Embeds `TTSSession.get_turn1_relative_path`:
`tts/sessions/<sid>/turn_1/slot-<N>_<agentId>_<voiceProfile>.wav`. -/
def get_turn1_relative_path (sessionId : String) (slotId : ℕ)
    (agentId voiceProfile : String) : String :=
  "tts/sessions/" ++ sessionId ++ "/turn_1/slot-" ++ toString slotId ++ "_"
    ++ agentId ++ "_" ++ voiceProfile ++ ".wav"

/-- Embeds `TTSSession.get_turn2_relative_path`:
`tts/sessions/<sid>/turn_2/slot-<N>_comment_to_slot-<T>_<agentId>_<voiceProfile>.wav`. -/
def get_turn2_relative_path (sessionId : String) (slotId targetSlotId : ℕ)
    (agentId voiceProfile : String) : String :=
  "tts/sessions/" ++ sessionId ++ "/turn_2/slot-" ++ toString slotId
    ++ "_comment_to_slot-" ++ toString targetSlotId ++ "_"
    ++ agentId ++ "_" ++ voiceProfile ++ ".wav"

/-- Embeds `TTSSession.get_turn3_relative_path`:
`tts/sessions/<sid>/turn_3/slot-<N>_reply_<agentId>_<voiceProfile>.wav`. -/
def get_turn3_relative_path (sessionId : String) (slotId : ℕ)
    (agentId voiceProfile : String) : String :=
  "tts/sessions/" ++ sessionId ++ "/turn_3/slot-" ++ toString slotId
    ++ "_reply_" ++ agentId ++ "_" ++ voiceProfile ++ ".wav"

/-! ## Request validation (`backend/models.py`)

`ChatRequest` is a pydantic model: `message: str = Field(min_length=1)`,
`slots: list[SlotRequest] = Field(min_length=1, max_length=6)`.
`SlotRequest.slotId` is `Literal[1..6]` and `agentId` one of the six
agent-id literals.  There is no validator on slot-id uniqueness. -/

structure SlotRequest where
  slotId : ℕ
  agentId : String
  deriving DecidableEq, Repr

/-- The `AgentId` literal type of `backend/models.py`. -/
def agentIdLiterals : List String :=
  ["claude-sonnet-4-5", "claude-opus-4-5", "gpt-5.2", "gpt-5.1", "gpt-4o", "gemini-3"]

/-- Pydantic validation of one `SlotRequest`: `slotId ∈ Literal[1..6]`,
`agentId` one of the six literals. -/
def slotRequestValid (s : SlotRequest) : Bool :=
  1 ≤ s.slotId && s.slotId ≤ 6 && agentIdLiterals.contains s.agentId

structure ChatRequest where
  message : String
  slots : List SlotRequest
  deriving DecidableEq, Repr

/-- Pydantic validation of `ChatRequest` as declared in `backend/models.py`:
non-empty message, 1..6 slot entries, each entry field-valid.  The model
declares no uniqueness constraint on `slotId`s. -/
def chatRequestValid (r : ChatRequest) : Bool :=
  1 ≤ r.message.length && 1 ≤ r.slots.length && r.slots.length ≤ 6
    && r.slots.all slotRequestValid

/-- Pydantic validation of the Turn-2 structured output `CommentSelection`
(`backend/models.py`): `targetSlotId` in 1..6 (nothing excludes the
commenting slot itself), comment of 1..150 characters. -/
def commentSelectionValid (targetSlotId : ℕ) (comment : String) : Bool :=
  1 ≤ targetSlotId && targetSlotId ≤ 6
    && 1 ≤ comment.length && comment.length ≤ 150

/-! ## Conversation store (`backend/conversations.py`)

`_conversations` is an insertion-ordered dict `slot_id → Conversation`;
a `Conversation` (from the external `rawagents` collaborator) is an
append-only list of entries. -/

/-- One conversation entry: role and raw text. -/
structure ConvEntry where
  role : String
  text : String
  deriving DecidableEq, Repr

/-- The module-global `_conversations` dict, insertion-ordered. -/
abbrev ConvStore := List (ℕ × List ConvEntry)

/-- Embeds `get_or_create_conversation`: create lazily with one system entry. -/
def get_or_create_conversation (sys : String) (store : ConvStore) (slotId : ℕ) :
    ConvStore :=
  if (store.lookup slotId).isSome then store
  else store ++ [(slotId, [⟨"system", sys⟩])]

/-- Embeds `reset_all_conversations`: snapshot the keys, clear the dict, and return
the snapshot — or `[1,2,3,4,5,6]` when the snapshot is empty
(`return cleared if cleared else [1, 2, 3, 4, 5, 6]`). -/
def reset_all_conversations (store : ConvStore) : List ℕ × ConvStore :=
  let cleared := store.map Prod.fst
  (if cleared.isEmpty then [1, 2, 3, 4, 5, 6] else cleared, [])

/-! ## Collaborator outcomes

LLM structured-completion calls and TTS synthesis are external
collaborators that either return a value or raise.  A raised exception is
already mapped by `map_exception_to_error_type`, so an LLM failure is
carried as the mapped error-type string plus message. -/

/-- Outcome of `llm.complete_structured` for a `SpokenResponse` call. -/
inductive LlmOutcome where
  | ok (text : String) (voiceProfile : String)
  | fail (errorType : String) (message : String)
  deriving DecidableEq, Repr

/-- Outcome of the TTS block.  `failInit` models `get_tts()` raising before
any path variable is assigned; `failSynth` models
`tts.generate_wav_to_file` raising, i.e. after `audio_path` and
`relative_path` have been assigned.  A failed synthesis writes no file. -/
inductive TtsOutcome where
  | ok
  | failInit (message : String)
  | failSynth (message : String)
  deriving DecidableEq, Repr

/-- Per-slot collaborator outcomes for one slot task. -/
structure SlotEnv where
  llm : LlmOutcome
  tts : TtsOutcome
  deriving DecidableEq, Repr

/-! ## Legacy streaming path (`backend/streaming.py`)

`process_slot` and `broadcast_chat` are the pre-workflow ("Phase 2")
broadcast path that `main.py` still wires to `POST /v1/chat`.  Its events
are constructed without `sessionId`/`turnIndex`/`kind` (fields that the
current `backend/models.py` declares as required), so the turn tag of
every emitted slot event is `none`, and no `turn.start`/`turn.done` event
is ever put on the queue. -/

/-- Event sequence put on the shared queue by `streaming.process_slot` for
one slot, as a function of the collaborator outcomes. -/
def process_slot (sessionId : String) (slotId : ℕ) (agentId : String)
    (env : SlotEnv) : List SSE :=
  SSE.slotStart none slotId ::
    match env.llm with
    | .fail errorType message => [SSE.slotError none slotId errorType message]
    | .ok text voice =>
        SSE.slotDone none slotId text voice ::
          match env.tts with
          | .ok =>
              [SSE.slotAudio none slotId
                (get_turn1_relative_path sessionId slotId agentId voice)]
          | .failInit message => [SSE.slotError none slotId "tts_error" message]
          | .failSynth message => [SSE.slotError none slotId "tts_error" message]

/-- Slot-completion counting of `broadcast_chat`: each slot is counted once,
on its first `slot.done` or `slot.error`.  Every branch of `process_slot`
emits at least one of the two, so each slot contributes exactly one. -/
def broadcast_completed_count (slots : List (ℕ × String)) : ℕ := slots.length

/-- Full SSE stream of `broadcast_chat` for a single-slot request: the one
slot task events in order (a single task admits only the sequential
interleaving), then the final `done` event. -/
def broadcast_chat_single (sessionId : String) (slotId : ℕ) (agentId : String)
    (env : SlotEnv) : List SSE :=
  process_slot sessionId slotId agentId env
    ++ [SSE.done (broadcast_completed_count [(slotId, agentId)])]

/-! ## Turn-engine per-slot task (`backend/workflow.py`, `process_turn1_slot`)

The Turn-1 slot task of the engine.  In the source the inner TTS `try` block
assigns `audio_path`/`relative_path` (pure path derivation) *before*
calling `tts.generate_wav_to_file`; on a synthesis exception the already
assigned `relative_path` therefore survives into the returned
`Turn1Result`. -/

structure Turn1Result where
  slot_id : ℕ
  agent_id : String
  text : String
  voice_profile : String
  success : Bool
  audio_path : Option String := none
  deriving DecidableEq, Repr

/-- Result of `process_turn1_slot`: emitted events, the returned
`Turn1Result`, and the list of audio files written (by relative path). -/
def process_turn1_slot (sessionId : String) (slotId : ℕ) (agentId : String)
    (env : SlotEnv) : List SSE × Turn1Result × List String :=
  let start := SSE.slotStart (some 1) slotId
  match env.llm with
  | .fail errorType message =>
      ([start, SSE.slotError (some 1) slotId errorType message],
       ⟨slotId, agentId, "", "", false, none⟩, [])
  | .ok text voice =>
      let llmDone := SSE.slotDone (some 1) slotId text voice
      match env.tts with
      | .ok =>
          let rel := get_turn1_relative_path sessionId slotId agentId voice
          ([start, llmDone, SSE.slotAudio (some 1) slotId rel],
           ⟨slotId, agentId, text, voice, true, some rel⟩, [rel])
      | .failInit message =>
          ([start, llmDone, SSE.slotError (some 1) slotId "tts_error" message],
           ⟨slotId, agentId, text, voice, true, none⟩, [])
      | .failSynth message =>
          let rel := get_turn1_relative_path sessionId slotId agentId voice
          ([start, llmDone, SSE.slotError (some 1) slotId "tts_error" message],
           ⟨slotId, agentId, text, voice, true, some rel⟩, [])

/-! ## Sorting helper

`workflow._compute_dialogues` ends with `dialogues.sort(key=...)` and
`orchestrator._emit_turn1_event` iterates `sorted(state.turn1_ready.items())`;
both are sorts by a natural-number key. -/

/-- Insert into a key-sorted list. -/
def insertByKey {α : Type} (key : α → ℕ) (x : α) : List α → List α
  | [] => [x]
  | y :: rest =>
      if key x ≤ key y then x :: y :: rest else y :: insertByKey key x rest

/-- Insertion sort by a natural-number key. -/
def sortByKey {α : Type} (key : α → ℕ) (l : List α) : List α :=
  l.foldr (insertByKey key) []

theorem mem_insertByKey {α : Type} (key : α → ℕ) (x a : α) (l : List α) :
    a ∈ insertByKey key x l ↔ a = x ∨ a ∈ l := by
  induction l with
  | nil => simp [insertByKey]
  | cons y rest ih =>
      by_cases h : key x ≤ key y
      · simp [insertByKey, h]
      · simp [insertByKey, h, ih]
        tauto

theorem mem_sortByKey {α : Type} (key : α → ℕ) (a : α) (l : List α) :
    a ∈ sortByKey key l ↔ a ∈ l := by
  induction l with
  | nil => simp [sortByKey]
  | cons y rest ih =>
      simp [sortByKey, List.foldr] at ih ⊢
      rw [mem_insertByKey]
      tauto

/-! ## Turn 2 results and comment routing (`backend/workflow.py`)

`route_comments` groups the successful Turn-2 results into the
insertion-ordered dict `comments_by_target` and caps each bucket at
`MAX_COMMENTS_PER_TARGET` with `random.sample` (uniform sampling without
replacement).  The sampler is embedded as an explicit function argument;
its contract (`len(sample(l, 3)) == 3`, elements drawn from `l`) is a
hypothesis of the theorems. -/

structure Turn2Result where
  slot_id : ℕ
  agent_id : String
  target_slot_id : ℕ
  comment : String
  voice_profile : String
  success : Bool
  audio_path : Option String := none
  deriving DecidableEq, Repr

structure ReceivedComment where
  from_slot_id : ℕ
  from_agent_id : String
  comment : String
  deriving DecidableEq, Repr

/-- The `ReceivedComment` built from one Turn-2 result. -/
def toReceived (r : Turn2Result) : ReceivedComment :=
  ⟨r.slot_id, r.agent_id, r.comment⟩

/-- Maximum comments any single slot can receive in Turn 3. -/
def MAX_COMMENTS_PER_TARGET : ℕ := 3

/-- Embeds `comments_by_target[target_id].append(...)` on the insertion-ordered
dict, creating the bucket on first use. -/
def appendToTarget (acc : List (ℕ × List ReceivedComment)) (t : ℕ)
    (c : ReceivedComment) : List (ℕ × List ReceivedComment) :=
  match acc with
  | [] => [(t, [c])]
  | (k, cs) :: rest =>
      if k = t then (k, cs ++ [c]) :: rest else (k, cs) :: appendToTarget rest t c

/-- The grouping loop of `route_comments`: successful results only, in
iteration order of `turn2_results.values()`. -/
def groupByTarget (results : List Turn2Result) : List (ℕ × List ReceivedComment) :=
  results.foldl
    (fun acc r =>
      if r.success then appendToTarget acc r.target_slot_id (toReceived r) else acc)
    []

/-- Dict access with the "absent key" reading `[]`. -/
def lookupComments (cbt : List (ℕ × List ReceivedComment)) (t : ℕ) :
    List ReceivedComment :=
  (cbt.lookup t).getD []

/-- The capping loop of `route_comments`:
`if len(comments) > MAX: comments_by_target[t] = random.sample(comments, MAX)`. -/
def capComments (sample : List ReceivedComment → List ReceivedComment)
    (comments : List ReceivedComment) : List ReceivedComment :=
  if MAX_COMMENTS_PER_TARGET < comments.length then sample comments else comments

/-- Embeds `route_comments`: group successful Turn-2 results by target, then cap
every bucket. -/
def route_comments (sample : List ReceivedComment → List ReceivedComment)
    (results : List Turn2Result) : List (ℕ × List ReceivedComment) :=
  (groupByTarget results).map (fun p => (p.1, capComments sample p.2))

/-! ## Turn 3 participation and dialogues (`backend/workflow.py`) -/

structure Turn3Result where
  slot_id : ℕ
  agent_id : String
  text : String
  voice_profile : String
  success : Bool
  audio_path : Option String := none
  deriving DecidableEq, Repr

/-- Embeds Participant selection of `execute_turn3`: slots of the request whose
slot ID has a non-empty bucket in `comments_by_target`. -/
def turn3Participants (slots : List SlotRequest)
    (cbt : List (ℕ × List ReceivedComment)) : List SlotRequest :=
  slots.filter (fun slot => !(lookupComments cbt slot.slotId).isEmpty)

/-- Per-participant LLM/TTS outcome for Turn 3, as recorded in the
returned `Turn3Result` (`process_turn3_slot` always sets
`slot_id`/`agent_id` from its arguments; a failed slot records empty
`text`/`voice_profile` and no audio path). -/
structure Turn3Outcome where
  success : Bool
  text : String
  voice_profile : String
  audio_path : Option String
  deriving DecidableEq, Repr

/-- Embeds `execute_turn3` result collection: one `Turn3Result` per participant,
stored under `result.slot_id`. -/
def executeTurn3Results (slots : List SlotRequest)
    (cbt : List (ℕ × List ReceivedComment)) (outcome : ℕ → Turn3Outcome) :
    List (ℕ × Turn3Result) :=
  (turn3Participants slots cbt).map (fun s =>
    let o := outcome s.slotId
    (s.slotId,
      if o.success then ⟨s.slotId, s.agentId, o.text, o.voice_profile, true, o.audio_path⟩
      else ⟨s.slotId, s.agentId, "", "", false, none⟩))

/-- Slot metadata (`backend/events/state.py`).  The carried-only
`audio_duration_ms` float (default `0.0`, never computed on) is omitted. -/
structure SlotMeta where
  slot_id : ℕ
  agent_id : String
  voice_profile : String
  tts_basename : String
  deriving DecidableEq, Repr

/-- Embeds `DialogueSpec` (`backend/events/state.py`). -/
structure DialogueSpec where
  dialogue_id : String
  target_slot_id : ℕ
  commenters : List SlotMeta := []
  respondent : Option SlotMeta := none
  deriving DecidableEq, Repr

/-- Python `Path(p).stem`: final path component, extension stripped at the
last dot. -/
def pathStem (path : String) : String :=
  let name := ((path.splitOn "/").getLast?).getD path
  let parts := name.splitOn "."
  if parts.length ≤ 1 then name else String.intercalate "." parts.dropLast

/-- Embeds `workflow._compute_dialogues`: one dialogue per successful Turn-3
respondent with a non-empty comment bucket; commenter metadata sourced
from the successful Turn-2 results; sorted by `target_slot_id`. -/
def computeDialogues (turn3_results : List (ℕ × Turn3Result))
    (comments_by_target : List (ℕ × List ReceivedComment))
    (turn2_results : List (ℕ × Turn2Result)) : List DialogueSpec :=
  let dialogues := turn3_results.filterMap (fun p =>
    let slotId := p.1
    let t3 := p.2
    if !t3.success then none
    else
      let comments := lookupComments comments_by_target slotId
      if comments.isEmpty then none
      else
        let commenters := comments.filterMap (fun c =>
          match turn2_results.lookup c.from_slot_id with
          | some t2 =>
              if t2.success then
                some (⟨t2.slot_id, t2.agent_id, t2.voice_profile,
                  match t2.audio_path with
                  | some ap => pathStem ap
                  | none => ""⟩ : SlotMeta)
              else none
          | none => none)
        let respondent : SlotMeta :=
          ⟨t3.slot_id, t3.agent_id, t3.voice_profile,
            match t3.audio_path with
            | some ap => pathStem ap
            | none => ""⟩
        some ⟨"turn23-slot" ++ toString slotId, slotId, commenters, some respondent⟩)
  sortByKey (fun d => d.target_slot_id) dialogues

/-! ## Session events state (`backend/events/state.py`)

Python sets become `Finset ℕ`; the `slot_id → SlotMeta` dicts become
insertion-ordered association lists.  The summary (Turn 4) fields are
carried for fidelity though no claim touches them. -/

structure SessionEventsState where
  session_id : String
  turn1_expected : Finset ℕ := ∅
  turn1_ready : List (ℕ × SlotMeta) := []
  turn1_emitted : Bool := false
  turn1_timed_out : Bool := false
  turn2_ready : List (ℕ × SlotMeta) := []
  turn3_ready : List (ℕ × SlotMeta) := []
  turn2_expected : Finset ℕ := ∅
  turn3_expected : Finset ℕ := ∅
  dialogues : List DialogueSpec := []
  dialogues_emitted : List String := []
  workflow_complete : Bool := false
  batch_emitted : Bool := false
  summary_expected : Bool := false
  summary_ready : Bool := false
  summary_emitted : Bool := false
  seq_counter : ℕ := 0
  deriving DecidableEq

/-- Key set of a ready dict. -/
def readyKeys (ready : List (ℕ × SlotMeta)) : Finset ℕ :=
  (ready.map Prod.fst).toFinset

/-- Embeds `SessionEventsState.is_turn1_complete`:
`self.turn1_expected == set(self.turn1_ready.keys())` — set *equality*. -/
def is_turn1_complete (s : SessionEventsState) : Bool :=
  s.turn1_expected = readyKeys s.turn1_ready

/-- Embeds `SessionEventsState.is_turn2_complete`: empty expectation counts as
complete, else `turn2_expected <= set(turn2_ready.keys())`. -/
def is_turn2_complete (s : SessionEventsState) : Bool :=
  if s.turn2_expected = ∅ then true
  else s.turn2_expected ⊆ readyKeys s.turn2_ready

/-- Embeds `SessionEventsState.is_turn3_complete`. -/
def is_turn3_complete (s : SessionEventsState) : Bool :=
  if s.turn3_expected = ∅ then true
  else s.turn3_expected ⊆ readyKeys s.turn3_ready

/-- Embeds `SessionEventsState.is_all_waves_ready`. -/
def is_all_waves_ready (s : SessionEventsState) : Bool :=
  if !s.workflow_complete then false
  else is_turn1_complete s && is_turn2_complete s && is_turn3_complete s

/-- Embeds `SessionEventsState.is_dialogue_ready`: respondent present and ready in
Turn 3, all commenters ready in Turn 2. -/
def is_dialogue_ready (s : SessionEventsState) (d : DialogueSpec) : Bool :=
  match d.respondent with
  | none => false
  | some resp =>
      decide (resp.slot_id ∈ readyKeys s.turn3_ready)
        && d.commenters.all (fun c => decide (c.slot_id ∈ readyKeys s.turn2_ready))

/-- Embeds `SessionEventsState.get_ready_dialogues`. -/
def get_ready_dialogues (s : SessionEventsState) : List DialogueSpec :=
  s.dialogues.filter (is_dialogue_ready s)

/-- The all-ready predicate of the claim, stated the way the spec words it
(§4.4): `workflow_complete ∧ turn1_expected ⊆ turn1_ready ∧
turn2_expected ⊆ turn2_ready ∧ turn3_expected ⊆ turn3_ready`.  Written
from the spec for the refinement comparison with `is_all_waves_ready`. -/
def allWavesReadySpec (s : SessionEventsState) : Prop :=
  s.workflow_complete = true
    ∧ s.turn1_expected ⊆ readyKeys s.turn1_ready
    ∧ s.turn2_expected ⊆ readyKeys s.turn2_ready
    ∧ s.turn3_expected ⊆ readyKeys s.turn3_ready

instance (s : SessionEventsState) : Decidable (allWavesReadySpec s) := by
  unfold allWavesReadySpec; infer_instance

/-! ## SlotWaveInfo emission (`backend/events/orchestrator.py`,
`backend/events/state.py`) -/

structure SlotWaveInfo where
  slotId : ℕ
  agentId : String
  voiceProfile : String
  wave1PathAbs : String
  wave1PathRel : String
  wave1TargetSlotId : ℕ
  wave2PathAbs : String
  wave2PathRel : String
  wave2TargetSlotId : ℕ
  deriving DecidableEq, Repr

/-- Embeds `SlotMeta.derive_wave_paths`: relative wave paths under
`waves/sessions/<sid>/turn_<N>/`, absolute paths under `artifacts/`. -/
def derive_wave_paths (m : SlotMeta) (sessionId : String) (turnIndex : ℕ) :
    String × String × String × String :=
  let baseRel := "waves/sessions/" ++ sessionId ++ "/turn_" ++ toString turnIndex
    ++ "/" ++ m.tts_basename ++ "_v3"
  let wave1Rel := baseRel ++ "_wave1.wav"
  let wave2Rel := baseRel ++ "_wave2.wav"
  ("artifacts/" ++ wave1Rel, wave1Rel, "artifacts/" ++ wave2Rel, wave2Rel)

/-- Embeds `EventsOrchestrator._compute_target_slots`: wave1 plays on the own slot
of the agent, wave2 on the next slot wrapping 6→1. -/
def compute_target_slots (agentSlotId : ℕ) : ℕ × ℕ :=
  (agentSlotId, agentSlotId % 6 + 1)

/-- The `SlotWaveInfo` built for one ready slot (shared shape of
`_emit_turn1_event` and `_emit_dialogue_event`). -/
def buildSlotWaveInfo (sessionId : String) (turnIndex : ℕ) (meta : SlotMeta) :
    SlotWaveInfo :=
  let paths := derive_wave_paths meta sessionId turnIndex
  let targets := compute_target_slots meta.slot_id
  { slotId := meta.slot_id
    agentId := meta.agent_id
    voiceProfile := meta.voice_profile
    wave1PathAbs := paths.1
    wave1PathRel := paths.2.1
    wave1TargetSlotId := targets.1
    wave2PathAbs := paths.2.2.1
    wave2PathRel := paths.2.2.2
    wave2TargetSlotId := targets.2 }

/-- Embeds Slot list of `_emit_turn1_event`: one `SlotWaveInfo` per entry of
`sorted(state.turn1_ready.items())`. -/
def emitTurn1Slots (s : SessionEventsState) : List SlotWaveInfo :=
  (sortByKey Prod.fst s.turn1_ready).map
    (fun p => buildSlotWaveInfo s.session_id 1 p.2)

/-- Embeds Commenter infos of `_emit_dialogue_event`: metadata taken from
`turn2_ready` with the commenter meta of the dialogue itself as fallback. -/
def emitDialogueCommenters (s : SessionEventsState) (d : DialogueSpec) :
    List SlotWaveInfo :=
  d.commenters.map (fun c =>
    buildSlotWaveInfo s.session_id 2 (((s.turn2_ready).lookup c.slot_id).getD c))

/-- Embeds Respondent info of `_emit_dialogue_event` (`turn3_ready` with the
dialogue respondent as fallback); `none` when the dialogue has no
respondent (the source would fault on attribute access, so emission only
happens for dialogues carrying one). -/
def emitDialogueRespondent (s : SessionEventsState) (d : DialogueSpec) :
    Option SlotWaveInfo :=
  d.respondent.map (fun r =>
    buildSlotWaveInfo s.session_id 3 (((s.turn3_ready).lookup r.slot_id).getD r))

/-! ## Batch emission machinery (`backend/events/orchestrator.py`)

The single consumer task of the orchestrator serializes these operations on
the state of one session; each operation runs without suspension between its
`batch_emitted` test and set.  `step` returns the updated state and the
number of batch emissions (0 or 1) the operation performed. -/

inductive BatchOp where
  /-- Embeds `_handle_result` for a decomposition result of the given turn/slot
  (`success` is the own success flag of the decomposition). -/
  | handleResult (turnIndex : ℕ) (slotId : ℕ) (meta : SlotMeta) (success : Bool)
  /-- Embeds `turn3_complete`: record dialogues, set `workflow_complete`, derive
  `turn3_expected` from the respondents of the dialogues, then re-check. -/
  | turn3Complete (dialogues : List DialogueSpec)
  /-- A bare `_check_and_emit_batch` readiness check. -/
  | checkBatch
  /-- The `_workflow_timeout_handler` timer firing. -/
  | timeoutFire
  deriving DecidableEq, Repr

/-- Embeds `_emit_batch`: re-check `batch_emitted`, set it, emit the Turn-1 event
(sets `turn1_emitted`, one `seq`) and every ready dialogue (one `seq`
each, recorded in `dialogues_emitted`). -/
def emitBatch (s : SessionEventsState) : SessionEventsState × ℕ :=
  if s.batch_emitted then (s, 0)
  else
    let ready := get_ready_dialogues s
    ({ s with
        batch_emitted := true
        turn1_emitted := true
        dialogues_emitted := s.dialogues_emitted ++ ready.map (·.dialogue_id)
        seq_counter := s.seq_counter + 1 + ready.length }, 1)

/-- Embeds `_check_and_emit_batch`: no-op unless the workflow is complete, the
batch unsent and every expected wave ready. -/
def checkAndEmitBatch (s : SessionEventsState) : SessionEventsState × ℕ :=
  if s.batch_emitted || !s.workflow_complete then (s, 0)
  else if !is_all_waves_ready s then (s, 0)
  else emitBatch s

/-- Embeds State update of `_handle_result`: ignore once the batch is emitted or on
a failed decomposition, else record the slot as ready for its turn. -/
def applyResult (s : SessionEventsState) (turnIndex slotId : ℕ) (meta : SlotMeta)
    (success : Bool) : SessionEventsState :=
  if s.batch_emitted then s
  else if !success then s
  else if turnIndex = 1 then { s with turn1_ready := s.turn1_ready ++ [(slotId, meta)] }
  else if turnIndex = 2 then { s with turn2_ready := s.turn2_ready ++ [(slotId, meta)] }
  else if turnIndex = 3 then { s with turn3_ready := s.turn3_ready ++ [(slotId, meta)] }
  else s

/-- One serialized orchestrator operation on the state of one session. -/
def step (s : SessionEventsState) : BatchOp → SessionEventsState × ℕ
  | .handleResult turnIndex slotId meta success =>
      if s.batch_emitted then (s, 0)
      else checkAndEmitBatch (applyResult s turnIndex slotId meta success)
  | .turn3Complete dialogues =>
      let s' := { s with
        dialogues := dialogues
        workflow_complete := true
        turn3_expected :=
          ((dialogues.filterMap (fun d => d.respondent)).map (·.slot_id)).toFinset }
      checkAndEmitBatch s'
  | .checkBatch => checkAndEmitBatch s
  | .timeoutFire => if s.batch_emitted then (s, 0) else emitBatch s

/-- Run a sequence of operations, accumulating the batch-emission count. -/
def run (s : SessionEventsState) : List BatchOp → SessionEventsState × ℕ
  | [] => (s, 0)
  | op :: rest =>
      let r := step s op
      let r' := run r.1 rest
      (r'.1, r.2 + r'.2)

/-! ## Decomposition worker pool (§4.3)

`backend/waves/worker.py` under `src/` holds an older pool without the
result callback: it carries no slot metadata, and on timeout or failure
it only logs.  The rest of the repository declares and calls the richer,
callback-carrying pool — `backend/waves/__init__.py` imports
`WavesJobResult` from `backend.waves.worker`, `startup_events` calls
`pool.set_result_callback(...)`, and `workflow.py` builds `DecomposeJob`s
with slot metadata — so the module of that pool is missing from `src/` and is
modelled from the spec here. -/

/-- Modelled from the spec: the rich `DecomposeJob` of §3 that the
missing callback-carrying worker module defines — `{session_id,
turn_index ∈ {1,2,3,-1}, slot_id, agent_id, voice_profile, tts_basename,
input_path, output_dir, target_slot_id?, n_waves}`, immutable after
submission. -/
structure WavesJob where
  session_id : String
  turn_index : Int
  slot_id : Int
  agent_id : String
  voice_profile : String
  tts_basename : String
  input_path : String
  output_dir : String
  target_slot_id : Option ℕ := none
  n_waves : ℕ := 2
  deriving DecidableEq, Repr

/-- Modelled from the spec: the result record (`WavesJobResult`) the
missing worker module delivers to the registered callback — the job plus
`success` and an optional `error`. -/
structure WavesJobResult where
  job : WavesJob
  success : Bool
  error : Option String := none
  deriving DecidableEq, Repr

/-- Execution outcome of one job inside a pool worker: the decomposition
either finishes (with its own success flag and error), or the per-job
timeout `job_timeout_s` elapses first. -/
inductive JobExec where
  | completes (success : Bool) (error : Option String)
  | timesOut
  deriving DecidableEq, Repr

/-- Modelled from the spec: the per-job processing of the missing worker
module.  "Timeout yields `success=false, error=\"timeout\"`" (§4.3); a
finished decomposition forwards its own flags. -/
def runWavesJob (job : WavesJob) : JobExec → WavesJobResult
  | .completes success error => ⟨job, success, error⟩
  | .timesOut => ⟨job, false, some "timeout"⟩

/-- Modelled from the spec: callback invocations for the accepted jobs
starting at index `i` (the index selects the execution outcome of each job). -/
def poolCallbackTraceFrom (exec : ℕ → JobExec) : ℕ → List WavesJob → List WavesJobResult
  | _, [] => []
  | i, job :: rest => runWavesJob job (exec i) :: poolCallbackTraceFrom exec (i + 1) rest

/-- Modelled from the spec: the callback-invocation trace of the pool over
the accepted jobs — "on completion, the pool invokes a single registered
result callback exactly once with the result record, whether successful
or not" (§4.3).  The execution outcome of the i-th accepted job is `exec i`. -/
def poolCallbackTrace (jobs : List WavesJob) (exec : ℕ → JobExec) :
    List WavesJobResult :=
  poolCallbackTraceFrom exec 0 jobs

/-! ## Concrete instances used by counterexamples and witnesses -/

/-- A metadata record for slot 1. -/
def meta1 : SlotMeta := ⟨1, "gpt-4o", "warm", "slot-1_gpt-4o_warm"⟩

/-- A metadata record for slot 2. -/
def meta2 : SlotMeta := ⟨2, "gemini-3", "calm", "slot-2_gemini-3_calm"⟩

/-- A state whose Turn-1 ready keys strictly contain the expected set:
`turn1_expected = {1}` but slots 1 and 2 are ready. -/
def extraReadyState : SessionEventsState :=
  { session_id := "s"
    turn1_expected := {1}
    turn1_ready := [(1, meta1), (2, meta2)]
    workflow_complete := true }

/-- A complete session state: workflow complete, expected = ready = {1}. -/
def allReadyState : SessionEventsState :=
  { session_id := "s"
    turn1_expected := {1}
    turn1_ready := [(1, meta1)]
    workflow_complete := true }

/-- A metadata record for slot 6, whose wave2 wraps to slot 1. -/
def meta6 : SlotMeta := ⟨6, "gpt-4o", "warm", "slot-6_gpt-4o_warm"⟩

/-- A state with slot 6 ready in Turn 1. -/
def slot6State : SessionEventsState :=
  { session_id := "s", turn1_ready := [(6, meta6)] }

/-- A sample decomposition job for the C2 witness. -/
def job0 : WavesJob :=
  { session_id := "s", turn_index := 1, slot_id := 3, agent_id := "gpt-4o"
    voice_profile := "warm", tts_basename := "slot-3_gpt-4o_warm"
    input_path := "artifacts/tts/sessions/s/turn_1/slot-3_gpt-4o_warm.wav"
    output_dir := "artifacts/waves/sessions/s/turn_1" }

/-- Turn-2 results for the C4 witness: four successful comments all
aimed at slot 2. -/
def fourComments : List Turn2Result :=
  [⟨1, "gpt-4o", 2, "c1", "warm", true, none⟩,
   ⟨3, "gemini-3", 2, "c3", "calm", true, none⟩,
   ⟨4, "gpt-5.1", 2, "c4", "warm", true, none⟩,
   ⟨5, "claude-opus-4-5", 2, "c5", "deep", true, none⟩]

/-- A schema-valid Turn-2 result whose comment targets its own slot — the
`CommentSelection` model only constrains `targetSlotId` to 1..6. -/
def selfComment : Turn2Result := ⟨3, "gpt-4o", 3, "nice", "warm", true, none⟩

/-- A successful Turn-2 result of slot 3 targeting slot 5. -/
def outwardComment : Turn2Result := ⟨3, "gpt-4o", 5, "nice", "warm", true, none⟩

/-! ## Theorems -/

/-- C1: the stream actually served by `POST /v1/chat` — `main.py` wires it
to `streaming.broadcast_chat` — is evaluated at the failing input
`{message: "hi", slots: [{slotId: 3, agentId: "gpt-4o"}]}` (happy-path
collaborators).  The stream is exactly four slot-level events, contains
no `turn.start` or `turn.done` anywhere, and ends with `done`: the
turn events of the turn-ordering guarantee never appear, because the wired
path is the legacy pre-workflow generator rather than
`run_three_turn_workflow`. -/
theorem C1_chat_stream_has_no_turn_events :
    broadcast_chat_single "s" 3 "gpt-4o" ⟨.ok "hello" "warm", .ok⟩
        = [SSE.slotStart none 3, SSE.slotDone none 3 "hello" "warm",
           SSE.slotAudio none 3 "tts/sessions/s/turn_1/slot-3_gpt-4o_warm.wav",
           SSE.done 1]
      ∧ (broadcast_chat_single "s" 3 "gpt-4o" ⟨.ok "hello" "warm", .ok⟩).all
          (fun e => !e.isTurnStart && !e.isTurnDone) = true
      ∧ (broadcast_chat_single "s" 3 "gpt-4o" ⟨.ok "hello" "warm", .ok⟩).getLast?
          = some (SSE.done 1) := by
  refine ⟨?_, ?_, ?_⟩ <;> rfl

/-- C8 counterexample: on the store holding one active conversation (slot
3), the first `reset_all_conversations` clears it, and the second call —
with no intervening activity — returns the full slot list
`[1, 2, 3, 4, 5, 6]`, not the empty list the claim requires. -/
theorem C8_second_reset_returns_full_list :
    (reset_all_conversations
        (reset_all_conversations [(3, [⟨"system", "p"⟩])]).2).1 = [1, 2, 3, 4, 5, 6]
      ∧ (reset_all_conversations
          (reset_all_conversations [(3, [⟨"system", "p"⟩])]).2).1 ≠ [] := by
  constructor
  · rfl
  · decide

/-- C8 (amended): `reset_all_conversations` is idempotent on the store —
one call empties it and any further calls keep it empty, so N calls have
the effect of one — but a repeat call with no intervening activity
returns the full slot list `[1,2,3,4,5,6]` (the function never returns an
empty list), not `[]`. -/
theorem C8_reset_all_idempotent (store : ConvStore) (n : ℕ) :
    (reset_all_conversations store).2 = []
      ∧ (fun st => (reset_all_conversations st).2)^[n + 1] store
          = (fun st => (reset_all_conversations st).2) store
      ∧ reset_all_conversations (reset_all_conversations store).2
          = ([1, 2, 3, 4, 5, 6], []) := by
  refine ⟨rfl, ?_, ?_⟩
  · induction n with
    | zero => rfl
    | succ m ih =>
        rw [Function.iterate_succ_apply', ih]
        rfl
  · rfl

/-- C9 counterexample: the request body
`{message: "hi", slots: [{slotId: 1, agentId: "gpt-4o"}, {slotId: 1,
agentId: "gpt-4o"}]}` carries a duplicated slot ID yet passes the
`ChatRequest` validation — the model declares no uniqueness constraint,
so a body with duplicate slotIds IS accepted. -/
theorem C9_duplicate_slot_ids_accepted :
    chatRequestValid ⟨"hi", [⟨1, "gpt-4o"⟩, ⟨1, "gpt-4o"⟩]⟩ = true
      ∧ ¬ (([⟨1, "gpt-4o"⟩, ⟨1, "gpt-4o"⟩] : List SlotRequest).map
            SlotRequest.slotId).Nodup := by
  constructor
  · rfl
  · decide

/-- C9 (amended): every broadcast request accepted by `POST /chat` carries
a non-empty message, between 1 and 6 slot assignments, and slot IDs in
1..6 — but slot-ID uniqueness is not enforced. -/
theorem C9_accepted_request_shape (r : ChatRequest)
    (h : chatRequestValid r = true) :
    1 ≤ r.message.length ∧ 1 ≤ r.slots.length ∧ r.slots.length ≤ 6
      ∧ ∀ s ∈ r.slots, 1 ≤ s.slotId ∧ s.slotId ≤ 6 := by
  unfold chatRequestValid at h
  simp only [Bool.and_eq_true, List.all_eq_true, decide_eq_true_eq] at h
  obtain ⟨⟨⟨hm, hn⟩, hx⟩, hs⟩ := h
  refine ⟨hm, hn, hx, fun s hsmem => ?_⟩
  have := hs s hsmem
  unfold slotRequestValid at this
  simp only [Bool.and_eq_true, decide_eq_true_eq] at this
  exact ⟨this.1.1, this.1.2⟩

/-- C9 witness: the accepted single-slot request `{message: "hi", slots:
[{slotId: 3, agentId: "gpt-4o"}]}` has the shape the theorem states. -/
theorem C9_accepted_request_shape_witness :
    1 ≤ (ChatRequest.mk "hi" [⟨3, "gpt-4o"⟩]).message.length
      ∧ 1 ≤ (ChatRequest.mk "hi" [⟨3, "gpt-4o"⟩]).slots.length
      ∧ (ChatRequest.mk "hi" [⟨3, "gpt-4o"⟩]).slots.length ≤ 6
      ∧ ∀ s ∈ (ChatRequest.mk "hi" [⟨3, "gpt-4o"⟩]).slots,
          1 ≤ s.slotId ∧ s.slotId ≤ 6 :=
  C9_accepted_request_shape ⟨"hi", [⟨3, "gpt-4o"⟩]⟩ (by rfl)

/-- The job of `runWavesJob` is returned unchanged in the result record. -/
theorem runWavesJob_job (j : WavesJob) (e : JobExec) : (runWavesJob j e).job = j := by
  cases e <;> rfl

/-- The trace carries back exactly the submitted jobs, in order. -/
theorem poolCallbackTraceFrom_map_job (exec : ℕ → JobExec) :
    ∀ (i : ℕ) (jobs : List WavesJob),
      (poolCallbackTraceFrom exec i jobs).map WavesJobResult.job = jobs := by
  intro i jobs
  induction jobs generalizing i with
  | nil => rfl
  | cons job rest ih =>
      simp [poolCallbackTraceFrom, runWavesJob_job, ih]

/-- Indexed view of the trace: position k holds the result of job k under
outcome `exec (i + k)`. -/
theorem poolCallbackTraceFrom_getElem? (exec : ℕ → JobExec) :
    ∀ (jobs : List WavesJob) (i k : ℕ),
      (poolCallbackTraceFrom exec i jobs)[k]?
        = (jobs[k]?).map (fun j => runWavesJob j (exec (i + k))) := by
  intro jobs
  induction jobs with
  | nil => intro i k; rfl
  | cons job rest ih =>
      intro i k
      cases k with
      | zero => simp [poolCallbackTraceFrom]
      | succ m =>
          simp only [poolCallbackTraceFrom, List.getElem?_cons_succ]
          rw [ih (i + 1) m]
          have : i + 1 + m = i + (m + 1) := by omega
          rw [this]

/-- C2: for every job accepted by the decomposition pool, the single
registered result callback receives exactly one result record — the
trace has one record per job, in order, each carrying its job — and a
job whose execution exceeds `job_timeout_s` yields a record with
`success = false` and `error = "timeout"`. -/
theorem C2_pool_callback_exactly_once (jobs : List WavesJob) (exec : ℕ → JobExec) :
    (poolCallbackTrace jobs exec).map WavesJobResult.job = jobs
      ∧ (∀ k, (poolCallbackTrace jobs exec)[k]?
            = (jobs[k]?).map (fun j => runWavesJob j (exec k)))
      ∧ (∀ k, exec k = JobExec.timesOut →
          (poolCallbackTrace jobs exec)[k]?
            = (jobs[k]?).map (fun j => ⟨j, false, some "timeout"⟩)) := by
  refine ⟨poolCallbackTraceFrom_map_job exec 0 jobs, ?_, ?_⟩
  · intro k
    rw [poolCallbackTrace, poolCallbackTraceFrom_getElem? exec jobs 0 k]
    simp
  · intro k hk
    rw [poolCallbackTrace, poolCallbackTraceFrom_getElem? exec jobs 0 k]
    simp [hk, runWavesJob]

/-- C2 witness: a one-job submission whose execution times out produces
exactly one callback record, carrying the job with `success = false`,
`error = "timeout"`. -/
theorem C2_pool_callback_exactly_once_witness :
    (poolCallbackTrace [job0] (fun _ => JobExec.timesOut)).map WavesJobResult.job = [job0]
      ∧ (poolCallbackTrace [job0] (fun _ => JobExec.timesOut))[0]?
          = ([job0][0]?).map (fun j => runWavesJob j JobExec.timesOut)
      ∧ (poolCallbackTrace [job0] (fun _ => JobExec.timesOut))[0]?
          = ([job0][0]?).map (fun j => ⟨j, false, some "timeout"⟩) :=
  have h := C2_pool_callback_exactly_once [job0] (fun _ => JobExec.timesOut)
  ⟨h.1, h.2.1 0, h.2.2 0 rfl⟩

/-- C3 counterexample: when the LLM call succeeds and
`tts.generate_wav_to_file` throws, `process_turn1_slot` returns a
`Turn1Result` with `success = true` but `audio_path` SET to the derived
relative path (assigned before the synthesis call) — not `None` as the
claim requires — and no audio file was written. -/
theorem C3_tts_failure_keeps_audio_path :
    (process_turn1_slot "s" 3 "gpt-4o"
        ⟨.ok "hello" "warm", .failSynth "boom"⟩).2.1.success = true
      ∧ (process_turn1_slot "s" 3 "gpt-4o"
          ⟨.ok "hello" "warm", .failSynth "boom"⟩).2.1.audio_path
          = some (get_turn1_relative_path "s" 3 "gpt-4o" "warm")
      ∧ (process_turn1_slot "s" 3 "gpt-4o"
          ⟨.ok "hello" "warm", .failSynth "boom"⟩).2.1.audio_path ≠ none
      ∧ (process_turn1_slot "s" 3 "gpt-4o"
          ⟨.ok "hello" "warm", .failSynth "boom"⟩).2.2 = [] := by
  refine ⟨rfl, rfl, ?_, rfl⟩
  simp [process_turn1_slot]

/-- C3 (amended): a TTS throw after a successful LLM call emits
`slot.error(type=tts_error)` and returns `success = true`, with
`audio_path` still set to the derived relative path although no file was
written; a `success = false` result has empty text and voice profile;
and the `audio_path` of a fully successful slot names a written file. -/
theorem C3_turn1_result_contract (sid : String) (slotId : ℕ) (agentId : String)
    (env : SlotEnv) :
    (∀ text voice msg, env.llm = .ok text voice → env.tts = .failSynth msg →
        SSE.slotError (some 1) slotId "tts_error" msg
            ∈ (process_turn1_slot sid slotId agentId env).1
          ∧ (process_turn1_slot sid slotId agentId env).2.1.success = true
          ∧ (process_turn1_slot sid slotId agentId env).2.1.audio_path
              = some (get_turn1_relative_path sid slotId agentId voice)
          ∧ (process_turn1_slot sid slotId agentId env).2.2 = [])
      ∧ ((process_turn1_slot sid slotId agentId env).2.1.success = false →
          (process_turn1_slot sid slotId agentId env).2.1.text = ""
            ∧ (process_turn1_slot sid slotId agentId env).2.1.voice_profile = "")
      ∧ (∀ text voice, env.llm = .ok text voice → env.tts = .ok →
          (process_turn1_slot sid slotId agentId env).2.1.audio_path
              = some (get_turn1_relative_path sid slotId agentId voice)
            ∧ get_turn1_relative_path sid slotId agentId voice
                ∈ (process_turn1_slot sid slotId agentId env).2.2) := by
  obtain ⟨llm, tts⟩ := env
  refine ⟨?_, ?_, ?_⟩
  · rintro text voice msg rfl rfl
    simp [process_turn1_slot]
  · cases llm with
    | ok t v => cases tts <;> simp [process_turn1_slot]
    | fail et m => simp [process_turn1_slot]
  · rintro text voice rfl rfl
    simp [process_turn1_slot]

/-- C3 witness: the three contract branches evaluated at concrete slot-3
runs — a synthesis failure, an LLM timeout failure, and a full success. -/
theorem C3_turn1_result_contract_witness :
    (SSE.slotError (some 1) 3 "tts_error" "boom"
          ∈ (process_turn1_slot "s" 3 "gpt-4o" ⟨.ok "hello" "warm", .failSynth "boom"⟩).1
        ∧ (process_turn1_slot "s" 3 "gpt-4o"
            ⟨.ok "hello" "warm", .failSynth "boom"⟩).2.1.success = true
        ∧ (process_turn1_slot "s" 3 "gpt-4o"
            ⟨.ok "hello" "warm", .failSynth "boom"⟩).2.1.audio_path
            = some (get_turn1_relative_path "s" 3 "gpt-4o" "warm")
        ∧ (process_turn1_slot "s" 3 "gpt-4o"
            ⟨.ok "hello" "warm", .failSynth "boom"⟩).2.2 = [])
      ∧ ((process_turn1_slot "s" 3 "gpt-4o"
            ⟨.fail "timeout" "slow", .ok⟩).2.1.text = ""
          ∧ (process_turn1_slot "s" 3 "gpt-4o"
              ⟨.fail "timeout" "slow", .ok⟩).2.1.voice_profile = "")
      ∧ ((process_turn1_slot "s" 3 "gpt-4o" ⟨.ok "hello" "warm", .ok⟩).2.1.audio_path
            = some (get_turn1_relative_path "s" 3 "gpt-4o" "warm")
          ∧ get_turn1_relative_path "s" 3 "gpt-4o" "warm"
              ∈ (process_turn1_slot "s" 3 "gpt-4o" ⟨.ok "hello" "warm", .ok⟩).2.2) :=
  ⟨(C3_turn1_result_contract "s" 3 "gpt-4o" ⟨.ok "hello" "warm", .failSynth "boom"⟩).1
      "hello" "warm" "boom" rfl rfl,
   (C3_turn1_result_contract "s" 3 "gpt-4o" ⟨.fail "timeout" "slow", .ok⟩).2.1 rfl,
   (C3_turn1_result_contract "s" 3 "gpt-4o" ⟨.ok "hello" "warm", .ok⟩).2.2
      "hello" "warm" rfl rfl⟩

/-- Appending a comment to a bucket changes exactly that bucket, at its
end. -/
theorem lookupComments_appendToTarget (t tq : ℕ) (c : ReceivedComment) :
    ∀ acc : List (ℕ × List ReceivedComment),
      lookupComments (appendToTarget acc t c) tq
        = if t = tq then lookupComments acc tq ++ [c] else lookupComments acc tq := by
  intro acc
  induction acc with
  | nil =>
      by_cases h : t = tq
      · subst h; simp [appendToTarget, lookupComments, List.lookup]
      · simp [appendToTarget, lookupComments, List.lookup,
          beq_false_of_ne (Ne.symm h), h]
  | cons p rest ih =>
      obtain ⟨k, cs⟩ := p
      by_cases hk : k = t
      · subst hk
        by_cases h : k = tq
        · subst h
          simp [appendToTarget, lookupComments, List.lookup]
        · simp [appendToTarget, lookupComments, List.lookup,
            beq_false_of_ne (Ne.symm h), h]
      · by_cases h : k = tq
        · subst h
          have ht : ¬ t = k := fun he => hk he.symm
          simp [appendToTarget, hk, lookupComments, List.lookup, ht]
        · have := ih
          simp only [lookupComments] at this
          simp [appendToTarget, hk, lookupComments, List.lookup,
            beq_false_of_ne (Ne.symm h), this]

/-- The grouping loop: the bucket of target `t` collects exactly the
successful Turn-2 results aimed at `t`, in iteration order. -/
theorem lookupComments_groupByTarget (results : List Turn2Result) (t : ℕ) :
    lookupComments (groupByTarget results) t
      = (results.filter (fun r => r.success && r.target_slot_id == t)).map toReceived := by
  suffices h : ∀ (rs : List Turn2Result) (acc : List (ℕ × List ReceivedComment)),
      lookupComments
          (rs.foldl (fun acc r =>
            if r.success then appendToTarget acc r.target_slot_id (toReceived r) else acc) acc) t
        = lookupComments acc t
            ++ (rs.filter (fun r => r.success && r.target_slot_id == t)).map toReceived by
    have := h results []
    simpa [groupByTarget, lookupComments, List.lookup] using this
  intro rs
  induction rs with
  | nil => intro acc; simp
  | cons r rest ih =>
      intro acc
      by_cases hs : r.success
      · simp only [List.foldl_cons, hs, if_true, ih]
        rw [lookupComments_appendToTarget]
        by_cases ht : r.target_slot_id = t
        · rw [if_pos ht]
          simp [List.filter_cons, hs, ht, List.append_assoc]
        · rw [if_neg ht]
          simp [List.filter_cons, hs, beq_false_of_ne ht]
      · simp only [List.foldl_cons, hs]
        simp only [Bool.false_eq_true, if_false, ih]
        simp [List.filter_cons, hs]

/-- Lookup commutes with the per-bucket capping map of `route_comments`. -/
theorem lookupComments_route_comments
    (sample : List ReceivedComment → List ReceivedComment)
    (results : List Turn2Result) (t : ℕ) :
    lookupComments (route_comments sample results) t
      = capComments sample (lookupComments (groupByTarget results) t) := by
  unfold route_comments
  have h : ∀ (l : List (ℕ × List ReceivedComment)),
      (l.map (fun p => (p.1, capComments sample p.2))).lookup t
        = (l.lookup t).map (capComments sample) := by
    intro l
    induction l with
    | nil => rfl
    | cons p rest ih =>
        obtain ⟨k, cs⟩ := p
        by_cases hk : t = k
        · subst hk; simp [List.lookup]
        · simp [List.lookup, beq_false_of_ne hk, ih]
  unfold lookupComments
  rw [h]
  cases hl : (groupByTarget results).lookup t with
  | none => simp [capComments, MAX_COMMENTS_PER_TARGET]
  | some cs => simp

/-- C4: comment routing groups exactly the successful Turn-2 results by
`target_slot_id`, and — for any sampler satisfying the contract of
`random.sample` (3 elements, drawn from the bucket, whenever the bucket exceeds
3) — every target retains `min(received, 3)` comments, each of which was
received. -/
theorem C4_route_comments_cap
    (sample : List ReceivedComment → List ReceivedComment)
    (results : List Turn2Result) (t : ℕ)
    (hlen : ∀ l, MAX_COMMENTS_PER_TARGET < l.length →
        (sample l).length = MAX_COMMENTS_PER_TARGET)
    (hmem : ∀ l, MAX_COMMENTS_PER_TARGET < l.length → ∀ c ∈ sample l, c ∈ l) :
    (lookupComments (route_comments sample results) t).length
        = min ((results.filter (fun r => r.success && r.target_slot_id == t)).length)
            MAX_COMMENTS_PER_TARGET
      ∧ (∀ c ∈ lookupComments (route_comments sample results) t,
          c ∈ (results.filter (fun r => r.success && r.target_slot_id == t)).map toReceived)
      ∧ lookupComments (groupByTarget results) t
          = (results.filter (fun r => r.success && r.target_slot_id == t)).map toReceived := by
  have hgroup := lookupComments_groupByTarget results t
  have hroute := lookupComments_route_comments sample results t
  refine ⟨?_, ?_, hgroup⟩
  · rw [hroute, hgroup]
    unfold capComments
    by_cases hcap : MAX_COMMENTS_PER_TARGET
        < ((results.filter (fun r => r.success && r.target_slot_id == t)).map toReceived).length
    · rw [if_pos hcap, hlen _ hcap]
      rw [List.length_map] at hcap
      unfold MAX_COMMENTS_PER_TARGET at hcap ⊢
      omega
    · rw [if_neg hcap, List.length_map]
      rw [List.length_map] at hcap
      unfold MAX_COMMENTS_PER_TARGET at hcap ⊢
      omega
  · intro c hc
    rw [hroute, hgroup] at hc
    unfold capComments at hc
    by_cases hcap : MAX_COMMENTS_PER_TARGET
        < ((results.filter (fun r => r.success && r.target_slot_id == t)).map toReceived).length
    · rw [if_pos hcap] at hc
      exact hmem _ hcap c hc
    · rwa [if_neg hcap] at hc

/-- C4 witness: with the take-3 sampler (which satisfies the sampling
contract) and four comments aimed at slot 2, the routed bucket keeps
`min(4, 3) = 3` comments, all of which were received. -/
theorem C4_route_comments_cap_witness :
    (lookupComments (route_comments (fun l => l.take 3) fourComments) 2).length
        = min ((fourComments.filter
            (fun r => r.success && r.target_slot_id == 2)).length) MAX_COMMENTS_PER_TARGET
      ∧ (∀ c ∈ lookupComments (route_comments (fun l => l.take 3) fourComments) 2,
          c ∈ (fourComments.filter
            (fun r => r.success && r.target_slot_id == 2)).map toReceived)
      ∧ lookupComments (groupByTarget fourComments) 2
          = (fourComments.filter
              (fun r => r.success && r.target_slot_id == 2)).map toReceived :=
  C4_route_comments_cap (fun l => l.take 3) fourComments 2
    (fun l hl => by
      simp only [List.length_take]
      unfold MAX_COMMENTS_PER_TARGET at hl ⊢
      omega)
    (fun l _ c hc => List.mem_of_mem_take hc)

/-- C5: every `SlotWaveInfo` emitted on the controller channel — whether
in the `turn1.waves.ready` slot list or as a dialogue commenter or
respondent — has `wave1TargetSlotId = slotId` and
`wave2TargetSlotId = slotId % 6 + 1` (wrapping slot 6 to slot 1). -/
theorem C5_wave_target_mapping (s : SessionEventsState) (d : DialogueSpec)
    (info : SlotWaveInfo)
    (h : info ∈ emitTurn1Slots s ∨ info ∈ emitDialogueCommenters s d
        ∨ emitDialogueRespondent s d = some info) :
    info.wave1TargetSlotId = info.slotId
      ∧ info.wave2TargetSlotId = info.slotId % 6 + 1 := by
  have hb : ∀ (sid : String) (ti : ℕ) (m : SlotMeta),
      (buildSlotWaveInfo sid ti m).wave1TargetSlotId = (buildSlotWaveInfo sid ti m).slotId
        ∧ (buildSlotWaveInfo sid ti m).wave2TargetSlotId
            = (buildSlotWaveInfo sid ti m).slotId % 6 + 1 := fun _ _ _ => ⟨rfl, rfl⟩
  rcases h with h | h | h
  · obtain ⟨p, _, rfl⟩ := List.mem_map.mp h
    exact hb _ _ _
  · obtain ⟨c, _, rfl⟩ := List.mem_map.mp h
    exact hb _ _ _
  · unfold emitDialogueRespondent at h
    obtain ⟨r, _, rfl⟩ := Option.map_eq_some'.mp h
    exact hb _ _ _

/-- C5 witness: the slot-6 info emitted in `turn1.waves.ready` for
`slot6State` targets its own slot with wave1 and wraps wave2 to slot 1. -/
theorem C5_wave_target_mapping_witness :
    ((buildSlotWaveInfo "s" 1 meta6).wave1TargetSlotId
          = (buildSlotWaveInfo "s" 1 meta6).slotId
        ∧ (buildSlotWaveInfo "s" 1 meta6).wave2TargetSlotId
            = (buildSlotWaveInfo "s" 1 meta6).slotId % 6 + 1)
      ∧ (buildSlotWaveInfo "s" 1 meta6).wave2TargetSlotId = 1 :=
  ⟨C5_wave_target_mapping slot6State ⟨"d", 0, [], none⟩ (buildSlotWaveInfo "s" 1 meta6)
      (Or.inl (List.Mem.head [])),
   rfl⟩

/-- C6 counterexample: `extraReadyState` (expected Turn-1 slots `{1}`,
ready slots `{1, 2}`, workflow complete, no Turn-2/3 expectations)
satisfies the subset-based all-ready predicate of the claim, yet
`is_all_waves_ready` is false because `is_turn1_complete` demands set
*equality* between expected and ready Turn-1 slots. -/
theorem C6_subset_state_not_all_ready :
    allWavesReadySpec extraReadyState
      ∧ is_all_waves_ready extraReadyState = false := by
  constructor
  · refine ⟨rfl, ?_, ?_, ?_⟩ <;> decide
  · decide

/-- C6 (amended): the batch-triggering predicate `is_all_waves_ready`
holds iff the workflow is complete, `turn1_expected` *equals* the ready
Turn-1 key set, and the Turn-2/Turn-3 expectations are subsets of their
ready key sets. -/
theorem C6_all_ready_iff (s : SessionEventsState) :
    is_all_waves_ready s = true ↔
      (s.workflow_complete = true
        ∧ s.turn1_expected = readyKeys s.turn1_ready
        ∧ s.turn2_expected ⊆ readyKeys s.turn2_ready
        ∧ s.turn3_expected ⊆ readyKeys s.turn3_ready) := by
  unfold is_all_waves_ready is_turn1_complete is_turn2_complete is_turn3_complete
  by_cases hw : s.workflow_complete
  · simp only [hw, Bool.not_true, Bool.false_eq_true, if_false, Bool.and_eq_true,
      decide_eq_true_eq, true_and]
    constructor
    · rintro ⟨⟨h1, h2⟩, h3⟩
      refine ⟨h1, ?_, ?_⟩
      · by_cases h2e : s.turn2_expected = ∅
        · rw [h2e]; exact Finset.empty_subset _
        · rw [if_neg h2e] at h2; exact decide_eq_true_eq.mp h2
      · by_cases h3e : s.turn3_expected = ∅
        · rw [h3e]; exact Finset.empty_subset _
        · rw [if_neg h3e] at h3; exact decide_eq_true_eq.mp h3
    · rintro ⟨h1, h2, h3⟩
      refine ⟨⟨h1, ?_⟩, ?_⟩
      · by_cases h2e : s.turn2_expected = ∅
        · rw [if_pos h2e]
        · rw [if_neg h2e]; exact decide_eq_true_eq.mpr h2
      · by_cases h3e : s.turn3_expected = ∅
        · rw [if_pos h3e]
        · rw [if_neg h3e]; exact decide_eq_true_eq.mpr h3
  · have hw' : s.workflow_complete = false := by
      cases hwc : s.workflow_complete
      · rfl
      · exact absurd hwc hw
    simp [hw']

/-- Lookup misses when no entry carries the key. -/
theorem lookup_eq_none_of_keys_ne {β : Type} (t : ℕ) :
    ∀ l : List (ℕ × β), (∀ p ∈ l, p.1 ≠ t) → l.lookup t = none := by
  intro l
  induction l with
  | nil => intro _; rfl
  | cons p rest ih =>
      intro h
      obtain ⟨k, b⟩ := p
      have hk : k ≠ t := h (k, b) (List.mem_cons_self _ _)
      simp only [List.lookup, beq_false_of_ne (Ne.symm hk)]
      exact ih (fun q hq => h q (List.mem_cons_of_mem _ hq))

/-- C10 counterexample: in a single-slot broadcast (slot 3), a
schema-valid Turn-2 comment targeting the commenting slot itself is
routed back to slot 3, so `execute_turn3` has the participant slot 3 —
Turn 3 runs, contradicting "for a single-slot request, Turn 3 never
runs". -/
theorem C10_single_slot_turn3_runs :
    commentSelectionValid selfComment.target_slot_id selfComment.comment = true
      ∧ turn3Participants [⟨3, "gpt-4o"⟩]
          (route_comments (fun l => l) [selfComment]) = [⟨3, "gpt-4o"⟩]
      ∧ turn3Participants [⟨3, "gpt-4o"⟩]
          (route_comments (fun l => l) [selfComment]) ≠ [] := by
  refine ⟨rfl, rfl, ?_⟩
  decide

/-- C10 (amended): only slots listed in the request can participate in
Turn 3 — a comment whose target is not a request slot never yields a
Turn-3 result or a dialogue with that target — but a single-slot request
can still reach Turn 3 through a schema-legal self-targeted comment. -/
theorem C10_turn3_confined_to_request (slots : List SlotRequest)
    (cbt : List (ℕ × List ReceivedComment)) (t2 : List (ℕ × Turn2Result))
    (outcome : ℕ → Turn3Outcome) (t : ℕ)
    (h : t ∉ slots.map SlotRequest.slotId) :
    (∀ p ∈ turn3Participants slots cbt, p.slotId ≠ t)
      ∧ (executeTurn3Results slots cbt outcome).lookup t = none
      ∧ (∀ d ∈ computeDialogues (executeTurn3Results slots cbt outcome) cbt t2,
          d.target_slot_id ≠ t) := by
  have hpart : ∀ p ∈ turn3Participants slots cbt, p.slotId ≠ t := by
    intro p hp he
    have hmem : p ∈ slots := List.mem_of_mem_filter hp
    exact h (List.mem_map.mpr ⟨p, hmem, he⟩)
  have hkeys : ∀ q ∈ executeTurn3Results slots cbt outcome, q.1 ≠ t := by
    intro q hq
    obtain ⟨p, hp, rfl⟩ := List.mem_map.mp hq
    exact hpart p hp
  refine ⟨hpart, lookup_eq_none_of_keys_ne t _ hkeys, ?_⟩
  intro d hd
  unfold computeDialogues at hd
  rw [mem_sortByKey] at hd
  obtain ⟨q, hq, hqd⟩ := List.mem_filterMap.mp hd
  have htar : d.target_slot_id = q.1 := by
    by_cases h1 : q.2.success
    · by_cases h2 : (lookupComments cbt q.1).isEmpty
      · simp [h1, h2] at hqd
      · simp only [h1, Bool.not_true, Bool.false_eq_true, if_false, h2,
          Option.some.injEq] at hqd
        rw [← hqd]
    · simp [h1] at hqd
  rw [htar]
  exact hkeys q hq

/-- C10 witness: the comment of slot 3 targets slot 5, which is not part of the
single-slot request — slot 5 never becomes a participant, gets no Turn-3
result, and no dialogue targets it. -/
theorem C10_turn3_confined_to_request_witness :
    (∀ p ∈ turn3Participants [⟨3, "gpt-4o"⟩]
        (route_comments (fun l => l) [outwardComment]), p.slotId ≠ 5)
      ∧ (executeTurn3Results [⟨3, "gpt-4o"⟩]
          (route_comments (fun l => l) [outwardComment])
          (fun _ => ⟨true, "r", "warm", none⟩)).lookup 5 = none
      ∧ (∀ d ∈ computeDialogues
            (executeTurn3Results [⟨3, "gpt-4o"⟩]
              (route_comments (fun l => l) [outwardComment])
              (fun _ => ⟨true, "r", "warm", none⟩))
            (route_comments (fun l => l) [outwardComment])
            [(3, outwardComment)],
          d.target_slot_id ≠ 5) :=
  C10_turn3_confined_to_request [⟨3, "gpt-4o"⟩]
    (route_comments (fun l => l) [outwardComment]) [(3, outwardComment)]
    (fun _ => ⟨true, "r", "warm", none⟩) 5 (by decide)

/-- Embeds Guard discipline of `_emit_batch`: either it does nothing and the
`batch_emitted` flag is untouched, or it emits once, which requires the
flag to have been clear and leaves it set. -/
theorem emitBatch_cases (s : SessionEventsState) :
    ((emitBatch s).2 = 0 ∧ (emitBatch s).1.batch_emitted = s.batch_emitted)
      ∨ ((emitBatch s).2 = 1 ∧ s.batch_emitted = false
          ∧ (emitBatch s).1.batch_emitted = true) := by
  unfold emitBatch
  by_cases hb : s.batch_emitted
  · left; simp [hb]
  · right
    have hb' : s.batch_emitted = false := by
      cases h : s.batch_emitted
      · rfl
      · exact absurd h hb
    simp [hb']

/-- Same discipline for `_check_and_emit_batch`. -/
theorem checkAndEmitBatch_cases (s : SessionEventsState) :
    ((checkAndEmitBatch s).2 = 0 ∧ (checkAndEmitBatch s).1.batch_emitted = s.batch_emitted)
      ∨ ((checkAndEmitBatch s).2 = 1 ∧ s.batch_emitted = false
          ∧ (checkAndEmitBatch s).1.batch_emitted = true) := by
  unfold checkAndEmitBatch
  split_ifs with h1 h2
  · left; exact ⟨rfl, rfl⟩
  · left; exact ⟨rfl, rfl⟩
  · exact emitBatch_cases s

/-- Embeds The ready-set update of `_handle_result` never touches `batch_emitted`. -/
theorem applyResult_batch_emitted (s : SessionEventsState) (ti sl : ℕ)
    (m : SlotMeta) (su : Bool) :
    (applyResult s ti sl m su).batch_emitted = s.batch_emitted := by
  unfold applyResult
  split_ifs <;> rfl

/-- Every serialized orchestrator operation either emits nothing and
preserves `batch_emitted`, or emits exactly once from a clear flag and
sets it. -/
theorem step_batch_cases (s : SessionEventsState) (op : BatchOp) :
    ((step s op).2 = 0 ∧ (step s op).1.batch_emitted = s.batch_emitted)
      ∨ ((step s op).2 = 1 ∧ s.batch_emitted = false
          ∧ (step s op).1.batch_emitted = true) := by
  cases op with
  | handleResult ti sl m su =>
      by_cases hb : s.batch_emitted
      · left; constructor <;> simp [step, hb]
      · simp only [step]
        rw [if_neg hb]
        have har := applyResult_batch_emitted s ti sl m su
        rcases checkAndEmitBatch_cases (applyResult s ti sl m su) with ⟨h0, he⟩ | ⟨h1, hf, ht⟩
        · left; exact ⟨h0, he.trans har⟩
        · right; exact ⟨h1, har ▸ hf, ht⟩
  | turn3Complete dialogues =>
      have := checkAndEmitBatch_cases
        { s with
          dialogues := dialogues
          workflow_complete := true
          turn3_expected :=
            ((dialogues.filterMap (fun d => d.respondent)).map (·.slot_id)).toFinset }
      exact this
  | checkBatch => exact checkAndEmitBatch_cases s
  | timeoutFire =>
      by_cases hb : s.batch_emitted
      · left; constructor <;> simp [step, hb]
      · simp only [step]
        rw [if_neg hb]
        exact emitBatch_cases s

/-- Once `batch_emitted` is set, no later operation emits anything. -/
theorem run_count_eq_zero_of_emitted (ops : List BatchOp) :
    ∀ s : SessionEventsState, s.batch_emitted = true → (run s ops).2 = 0 := by
  induction ops with
  | nil => intro s _; rfl
  | cons op rest ih =>
      intro s hs
      rcases step_batch_cases s op with ⟨h0, he⟩ | ⟨_, hf, _⟩
      · simp only [run, h0, Nat.zero_add]
        exact ih _ (he.trans hs)
      · rw [hs] at hf; cases hf

/-- Any operation sequence emits the batch at most once. -/
theorem run_count_le_one (ops : List BatchOp) :
    ∀ s : SessionEventsState, (run s ops).2 ≤ 1 := by
  induction ops with
  | nil => intro s; exact Nat.zero_le 1
  | cons op rest ih =>
      intro s
      rcases step_batch_cases s op with ⟨h0, _⟩ | ⟨h1, _, ht⟩
      · simp only [run, h0, Nat.zero_add]
        exact ih _
      · have h0 := run_count_eq_zero_of_emitted rest (step s op).1 ht
        simp [run, h1, h0]

/-- A timeout firing on an unemitted session forces an emission. -/
theorem run_timeout_emits (ops : List BatchOp) :
    ∀ s : SessionEventsState, s.batch_emitted = false →
      BatchOp.timeoutFire ∈ ops → 1 ≤ (run s ops).2 := by
  induction ops with
  | nil => intro s _ hmem; cases hmem
  | cons op rest ih =>
      intro s hs hmem
      rcases step_batch_cases s op with ⟨h0, he⟩ | ⟨h1, _, _⟩
      · rcases List.mem_cons.mp hmem with hop | hrest
        · exfalso
          have h1 : (step s op).2 = 1 := by
            rw [← hop]
            simp [step, hs, emitBatch]
          omega
        · have := ih (step s op).1 (he.trans hs) hrest
          simp only [run]
          omega
      · simp only [run]
        omega

/-- C7: over any serialized sequence of orchestrator operations the batch
is emitted at most once (`batch_emitted` is checked and set before
emitting, so repeated readiness checks and a later timeout can never
re-emit); a timeout firing on an unemitted session makes the count
exactly one; and a readiness check performed when the all-ready
predicate holds emits immediately. -/
theorem C7_batch_emitted_exactly_once (s : SessionEventsState)
    (ops : List BatchOp) :
    (run s ops).2 ≤ 1
      ∧ (s.batch_emitted = false → BatchOp.timeoutFire ∈ ops → (run s ops).2 = 1)
      ∧ (s.batch_emitted = false → is_all_waves_ready s = true →
          (step s BatchOp.checkBatch).2 = 1) := by
  refine ⟨run_count_le_one ops s, fun hf hm => ?_, fun hf hr => ?_⟩
  · have h1 := run_timeout_emits ops s hf hm
    have h2 := run_count_le_one ops s
    omega
  · have hw : s.workflow_complete = true := by
      cases hwc : s.workflow_complete
      · rw [is_all_waves_ready, hwc] at hr
        simp at hr
      · rfl
    simp [step, checkAndEmitBatch, hf, hw, hr, emitBatch]

/-- C7 witness: on the fully ready `allReadyState`, running a readiness
check followed by the timeout emits the batch exactly once, and the bare
check emits. -/
theorem C7_batch_emitted_exactly_once_witness :
    (run allReadyState [BatchOp.checkBatch, BatchOp.timeoutFire]).2 ≤ 1
      ∧ (run allReadyState [BatchOp.checkBatch, BatchOp.timeoutFire]).2 = 1
      ∧ (step allReadyState BatchOp.checkBatch).2 = 1 :=
  have h := C7_batch_emitted_exactly_once allReadyState
    [BatchOp.checkBatch, BatchOp.timeoutFire]
  ⟨h.1, h.2.1 rfl (by decide), h.2.2 rfl (by decide)⟩

end RR
